import Mathlib

/-!
Verification of the civic-ai-engine conversational core (`src/main.py`).

The embedding models:
* `detect_intent` — keyword-overlap intent classification (main.py lines 51-65).
  The source re-reads `intents/*.txt` on every call; the `index` argument is
  the contents of those files as read during the call, one entry per file:
  (intent name, stripped non-blank lines).
* `analyze_complaint_web` — the analysis pipeline (main.py lines 68-92).
  The two trained classifiers are opaque capabilities, modelled as functions.
* `whatsapp_bot` — the dialogue state machine over the in-memory session
  store (main.py lines 95-177).  `random.randint(1000, 9999)` is modelled by
  the parameter `rand`; theorems that need it assume `1000 ≤ rand ≤ 9999`.
-/

/-- The two trained classifiers, consumed as opaque `predict` capabilities:
`coherence` models `bool(coherence_classifier.predict([text])[0])`,
`category` models `category_classifier.predict([text])[0]`. -/
structure Caps where
  coherence : String → Bool
  category : String → String

/-- Request body of `POST /api/ai/analyze` (pydantic model `ComplaintData`). -/
structure ComplaintData where
  name : String
  contact : String
  category : String
  title : String
  description : String
  location : String

/-- The JSON object returned by `analyze_complaint_web`.  The invalid branch
returns only `isComplaintValid` and `reasoning`; absent keys are `none`. -/
structure AnalysisResult where
  isComplaintValid : Bool
  reasoning : String
  priority : Option String := none
  suggestedCategory : Option String := none
  estimatedResolutionDays : Option Nat := none
deriving DecidableEq, Repr

/-- A session record of `whatsapp_conversations`: a dict whose `stage` key is
always set at creation; the other keys are present (`some`) or absent. -/
structure Session where
  stage : String
  description : Option String := none
  category : Option String := none
  priority : Option String := none
  location : Option String := none
  password : Option String := none
  id : Option String := none
deriving DecidableEq, Repr

/-- The session store `whatsapp_conversations`, keyed by phone. -/
def Store := String → Option Session

/-- `whatsapp_conversations[k] = v`. -/
def Store.set (st : Store) (k : String) (v : Session) : Store :=
  fun q => if q = k then some v else st q

/-- `whatsapp_conversations.pop(k, None)`. -/
def Store.del (st : Store) (k : String) : Store :=
  fun q => if q = k then none else st q

/-- `s.lower()` on the character list (ASCII, as the inputs here are). -/
def strLower (s : String) : String := String.mk (s.data.map Char.toLower)

/-- Accumulator loop for `s.split()`: split on whitespace runs, no empty
words; `cur` holds the current word reversed. -/
def wordsAux : List Char → List Char → List String
  | [], cur => if cur.isEmpty then [] else [String.mk cur.reverse]
  | c :: rest, cur =>
      if c.isWhitespace then
        if cur.isEmpty then wordsAux rest []
        else String.mk cur.reverse :: wordsAux rest []
      else wordsAux rest (c :: cur)

/-- `s.strip()`: drop whitespace from both ends. -/
def strTrim (s : String) : String :=
  String.mk (((s.data.dropWhile Char.isWhitespace).reverse.dropWhile
    Char.isWhitespace).reverse)

/-- `s.split(sep)` for a one-character separator, as used on `From`. -/
def splitOnChar (sep : Char) : List Char → List (List Char)
  | [] => [[]]
  | a :: rest =>
      let r := splitOnChar sep rest
      if a = sep then [] :: r
      else
        match r with
        | [] => [[a]]
        | h :: t => (a :: h) :: t

/-- `message.lower().split()`: lower-case, split on whitespace runs. -/
def tokensOf (message : String) : List String :=
  wordsAux (strLower message).data []

/-- `len(message_words.intersection(keywords))`: the number of distinct
keywords of the intent that occur among the message's tokens (`keywords` is
a Python set, so duplicate lines collapse). -/
def overlapScore (keywords : List String) (message : String) : Nat :=
  (keywords.dedup.filter (fun k => k ∈ tokensOf message)).length

/-- The `scores` dict of `detect_intent`, in file order: intents whose
overlap with the message is positive, paired with that overlap. -/
def scoredIntents (index : List (String × List String)) (message : String) :
    List (String × Nat) :=
  index.filterMap (fun entry =>
    let score := overlapScore entry.2 message
    if 0 < score then some (entry.1, score) else none)

/-- `max(scores, key=lambda x: scores[x])`: Python's `max` keeps the first
element in iteration order, replacing it only on a strictly greater key. -/
def pickBest (best cand : String × Nat) : String × Nat :=
  if best.2 < cand.2 then cand else best

/-- `detect_intent` (main.py lines 51-65).  `index` holds the contents of the
`intents/*.txt` files as read by this call, in `glob` order. -/
def detect_intent (index : List (String × List String)) (message : String) :
    String :=
  match scoredIntents index message with
  | [] => "unknown"
  | first :: rest => (rest.foldl pickBest first).1

/-- Substring scan: does `pat` occur as a contiguous run of `l`? -/
def listContainsSub (pat : List Char) : List Char → Bool
  | [] => pat.isEmpty
  | c :: rest => pat.isPrefixOf (c :: rest) || listContainsSub pat rest

/-- `keyword in text_lower`: substring containment. -/
def containsSub (s pat : String) : Bool := listContainsSub pat.data s.data

/-- The fixed severity keyword list of the priority heuristic (main.py line 80). -/
def high_priority_keywords : List String :=
  ["urgent", "dangerous", "hazard", "fire", "leak", "exposed", "accident",
   "unsafe", "sewage", "overflow"]

/-- `analyze_complaint_web` (main.py lines 68-92). -/
def analyze_complaint_web (caps : Caps) (complaint : ComplaintData) :
    AnalysisResult :=
  let complaint_text := complaint.title ++ " " ++ complaint.description
  let text_lower := strLower complaint_text
  let is_valid := caps.coherence complaint_text
  if !is_valid then
    { isComplaintValid := false, reasoning := "Invalid complaint text." }
  else
    let predicted_category := caps.category complaint_text
    let priority :=
      if high_priority_keywords.any (fun k => containsSub text_lower k)
      then "High" else "Medium"
    { isComplaintValid := true, reasoning := "",
      priority := some priority,
      suggestedCategory := some predicted_category,
      estimatedResolutionDays := some 5 }

/-- `start_complaint_flow` (main.py lines 103-123): analyze the description,
build the `get_location` session, and produce the categorization reply.
When the analysis reports the text valid, its `suggestedCategory` and
`priority` keys are always present; the catch-all arm mirrors the dict
lookups `analysis_result["suggestedCategory"]` / `["priority"]` being
reachable only in that case. -/
def start_complaint_flow (caps : Caps) (user_phone complaint_desc : String) :
    String × Session :=
  let analysis_result := analyze_complaint_web caps
    { name := "WhatsApp User", contact := user_phone, category := "unknown",
      title := "WhatsApp Complaint", description := complaint_desc,
      location := "unknown" }
  let cp : String × String :=
    match analysis_result.isComplaintValid, analysis_result.suggestedCategory,
        analysis_result.priority with
    | true, some c, some p => (c, p)
    | _, _, _ => ("unknown", "medium")
  ("Got it. I've categorized this as a '" ++ cp.1 ++ "' issue with '" ++
     cp.2 ++ "' priority. What is the location of this issue?",
   { stage := "get_location", description := some complaint_desc,
     category := some cp.1, priority := some cp.2 })

/-- The session key: `message.From.split(':')[-1]`. -/
def phoneOf (From : String) : String :=
  String.mk ((splitOnChar ':' From.data).getLastD [])

/-- Fuel-bounded loop producing the base-10 digit characters of `n`, most
significant first; `fuel ≥ n` suffices since `n / 10 < n` for `n ≠ 0`. -/
def decDigitsAux : Nat → Nat → List Char
  | 0, _ => []
  | fuel + 1, n =>
      if n = 0 then []
      else decDigitsAux fuel (n / 10) ++ [Char.ofNat (48 + n % 10)]

/-- Decimal rendering of the random suffix, as Python's f-string prints it. -/
def natDecRepr (n : Nat) : String := String.mk (decDigitsAux n n)

/-- `whatsapp_bot` (main.py lines 95-177): one webhook invocation.  Returns
the reply text and the updated store.  `rand` is the value drawn by
`random.randint(1000, 9999)` in the `get_password` branch. -/
def whatsapp_bot (caps : Caps) (rand : Nat)
    (index : List (String × List String)) (store : Store)
    (From Body : String) : String × Store :=
  let user_phone := phoneOf From
  let user_message := strTrim Body
  match store user_phone with
  | none =>
      let intent := detect_intent index user_message
      if intent = "file_complaint" then
        let fr := start_complaint_flow caps user_phone user_message
        (fr.1, store.set user_phone fr.2)
      else if intent = "check_status" then
        ("To check the status of a complaint, please provide your Complaint ID.",
         store.set user_phone { stage := "get_status_id" })
      else
        ("Welcome to the Smart Grievance System! How can I help you today? You can say 'file a complaint' or 'check status'.",
         store.set user_phone { stage := "greeting" })
  | some session =>
      if session.stage = "greeting" then
        let intent := detect_intent index user_message
        if intent = "file_complaint" then
          let fr := start_complaint_flow caps user_phone user_message
          (fr.1, store.set user_phone fr.2)
        else if intent = "check_status" then
          ("To check the status of a complaint, please provide your Complaint ID.",
           store.set user_phone { session with stage := "get_status_id" })
        else
          ("I'm sorry, I didn't understand. You can say 'file a complaint' or 'check status'.",
           store.set user_phone session)
      else if session.stage = "get_description" then
        let fr := start_complaint_flow caps user_phone user_message
        (fr.1, store.set user_phone fr.2)
      else if session.stage = "get_location" then
        ("Thank you. Finally, please set a simple password to secure this complaint.",
         store.set user_phone
           { session with location := some user_message, stage := "get_password" })
      else if session.stage = "get_password" then
        let complaint_id := "WACMP-" ++ natDecRepr rand
        ("Excellent! Your complaint has been filed. Your Complaint ID is: *" ++
           complaint_id ++ "*. Please save this ID.",
         store.del user_phone)
      else if session.stage = "get_status_id" then
        ("Checking status for complaint " ++ user_message ++
           "... (This feature is in development).",
         store.del user_phone)
      else
        ("", store.set user_phone session)

/-! ### Basic lemmas about the string model -/

theorem listContainsSub_iff (pat l : List Char) :
    listContainsSub pat l = true ↔ pat <:+: l := by
  induction l with
  | nil => simp [listContainsSub, List.isEmpty_iff, List.infix_nil]
  | cons c rest ih =>
      simp [listContainsSub, List.isPrefixOf_iff_prefix, ih,
        List.infix_cons_iff]

theorem containsSub_iff (s pat : String) :
    containsSub s pat = true ↔ pat.data <:+: s.data :=
  listContainsSub_iff pat.data s.data

/-! ### Fixtures used by witness theorems -/

/-- Capability pair that judges every text valid, with a fixed category. -/
def capsValid : Caps := ⟨fun _ => true, fun _ => "Roads"⟩

/-- Capability pair that judges every text invalid. -/
def capsInvalid : Caps := ⟨fun _ => false, fun _ => "Roads"⟩

/-- A concrete intent keyword index: contents of an `intents` directory with
`check_status.txt` and `file_complaint.txt`. -/
def idxSample : List (String × List String) :=
  [("check_status", ["status", "check"]),
   ("file_complaint", ["complaint", "file", "report"])]

/-- The empty session store. -/
def emptyStore : Store := fun _ => none

/-- A concrete analyze request. -/
def cdSample : ComplaintData :=
  { name := "Jo", contact := "123", category := "unknown",
    title := "Broken streetlight", description := "The light is out",
    location := "5th Ave" }

/-- The worked example of the spec, split as title plus description, whose
concatenation with the separating space is
"There is a gas leak near my house, very unsafe". -/
def cdGasLeak : ComplaintData :=
  { name := "Jo", contact := "123", category := "unknown",
    title := "There is a gas leak",
    description := "near my house, very unsafe", location := "home" }

/-! ### C2: invalid text short-circuits the pipeline -/

/-- C2: if the validity capability returns false on the combined text,
`analyze_complaint_web` returns `isComplaintValid := false` with no
category, no priority and no estimated resolution days; the result does not
depend on the category capability; and in general the result never carries a
category (nor priority, nor days) when `isComplaintValid` is false. -/
theorem analyze_invalid_short_circuit (caps : Caps) (cd : ComplaintData)
    (h : caps.coherence (cd.title ++ " " ++ cd.description) = false) :
    analyze_complaint_web caps cd =
      { isComplaintValid := false, reasoning := "Invalid complaint text.",
        priority := none, suggestedCategory := none,
        estimatedResolutionDays := none } ∧
    (∀ catFn : String → String,
      analyze_complaint_web ⟨caps.coherence, catFn⟩ cd =
        analyze_complaint_web caps cd) ∧
    (∀ (caps' : Caps) (cd' : ComplaintData),
      (analyze_complaint_web caps' cd').isComplaintValid = false →
        (analyze_complaint_web caps' cd').suggestedCategory = none ∧
        (analyze_complaint_web caps' cd').priority = none ∧
        (analyze_complaint_web caps' cd').estimatedResolutionDays = none) := by
  refine ⟨by simp [analyze_complaint_web, h], fun catFn => by
    simp [analyze_complaint_web, h], fun caps' cd' hv => ?_⟩
  by_cases hc : caps'.coherence (cd'.title ++ " " ++ cd'.description) = true
  · simp [analyze_complaint_web, hc] at hv
  · rw [Bool.not_eq_true] at hc
    simp [analyze_complaint_web, hc]

/-- Witness for C2 at a concrete capability pair and request. -/
theorem analyze_invalid_short_circuit_witness :
    capsInvalid.coherence (cdSample.title ++ " " ++ cdSample.description)
      = false ∧
    analyze_complaint_web capsInvalid cdSample =
      { isComplaintValid := false, reasoning := "Invalid complaint text.",
        priority := none, suggestedCategory := none,
        estimatedResolutionDays := none } :=
  ⟨rfl, (analyze_invalid_short_circuit capsInvalid cdSample rfl).1⟩

/-! ### C3: the priority heuristic -/

/-- C3: on text judged valid, the priority is `High` exactly when the
lower-cased combined text contains one of the ten severity keywords as a
substring, and `Medium` otherwise; the category capability does not affect
it. -/
theorem analyze_priority_heuristic (caps : Caps) (cd : ComplaintData)
    (h : caps.coherence (cd.title ++ " " ++ cd.description) = true) :
    ((analyze_complaint_web caps cd).priority = some "High" ↔
      ∃ k ∈ high_priority_keywords,
        k.data <:+: (strLower (cd.title ++ " " ++ cd.description)).data) ∧
    ((¬ ∃ k ∈ high_priority_keywords,
        k.data <:+: (strLower (cd.title ++ " " ++ cd.description)).data) →
      (analyze_complaint_web caps cd).priority = some "Medium") ∧
    (∀ catFn : String → String,
      (analyze_complaint_web ⟨caps.coherence, catFn⟩ cd).priority =
        (analyze_complaint_web caps cd).priority) := by
  have hany : high_priority_keywords.any
      (fun k => containsSub (strLower (cd.title ++ " " ++ cd.description)) k)
        = true ↔
      ∃ k ∈ high_priority_keywords,
        k.data <:+: (strLower (cd.title ++ " " ++ cd.description)).data := by
    simp only [List.any_eq_true, containsSub_iff]
  refine ⟨?_, ?_, ?_⟩
  · rw [← hany]
    by_cases hp : high_priority_keywords.any
        (fun k => containsSub (strLower (cd.title ++ " " ++ cd.description)) k)
          = true
    · simp [analyze_complaint_web, h, hp]
    · rw [Bool.not_eq_true] at hp
      simp [analyze_complaint_web, h, hp]
  · rw [← hany]
    intro hp
    rw [Bool.not_eq_true] at hp
    simp [analyze_complaint_web, h, hp]
  · intro catFn
    simp [analyze_complaint_web, h]

/-- Witness for C3: a valid complaint mentioning "fire" gets priority High. -/
theorem analyze_priority_heuristic_witness :
    capsValid.coherence (cdSample.title ++ " " ++ cdSample.description)
      = true ∧
    ∃ k ∈ high_priority_keywords,
      k.data <:+:
        (strLower (("A fire" : String) ++ " " ++ "burning trash pile")).data :=
  ⟨rfl,
    (analyze_priority_heuristic capsValid
      { cdSample with title := "A fire", description := "burning trash pile" }
      rfl).1.mp (by decide)⟩

/-! ### C8: constant estimated resolution time -/

/-- C8: on text judged valid the result's `estimatedResolutionDays` is the
constant 5; on the worked example "There is a gas leak near my house, very
unsafe" (split here as title plus description) a valid verdict yields
priority High together with 5 days. -/
theorem analyze_resolution_days (caps : Caps) (cd : ComplaintData)
    (h : caps.coherence (cd.title ++ " " ++ cd.description) = true) :
    (analyze_complaint_web caps cd).estimatedResolutionDays = some 5 ∧
    (∀ caps' : Caps,
      caps'.coherence (cdGasLeak.title ++ " " ++ cdGasLeak.description)
        = true →
      (analyze_complaint_web caps' cdGasLeak).priority = some "High" ∧
      (analyze_complaint_web caps' cdGasLeak).estimatedResolutionDays
        = some 5) := by
  constructor
  · simp [analyze_complaint_web, h]
  · intro caps' h'
    have h'' :
        caps'.coherence "There is a gas leak near my house, very unsafe"
          = true := h'
    constructor
    · simp [analyze_complaint_web, cdGasLeak, h'']
      decide
    · simp [analyze_complaint_web, cdGasLeak, h'']

/-- Witness for C8 at a concrete capability pair. -/
theorem analyze_resolution_days_witness :
    capsValid.coherence (cdSample.title ++ " " ++ cdSample.description)
      = true ∧
    (analyze_complaint_web capsValid cdSample).estimatedResolutionDays
      = some 5 ∧
    (analyze_complaint_web capsValid cdGasLeak).priority = some "High" :=
  ⟨rfl, (analyze_resolution_days capsValid cdSample rfl).1,
    ((analyze_resolution_days capsValid cdSample rfl).2 capsValid rfl).1⟩

/-! ### C10: invalid analysis does not stop the chat flow -/

/-- C10: when the analysis judges the WhatsApp description invalid, the flow
still advances to a `get_location` session, with the fallback category
"unknown" and the lowercase fallback priority "medium", and the reply embeds
those fallback values. -/
theorem start_flow_invalid_fallback (caps : Caps) (phone desc : String)
    (h : caps.coherence ("WhatsApp Complaint " ++ desc) = false) :
    start_complaint_flow caps phone desc =
      ("Got it. I've categorized this as a 'unknown' issue with 'medium' priority. What is the location of this issue?",
       { stage := "get_location", description := some desc,
         category := some "unknown", priority := some "medium" }) := by
  simp [start_complaint_flow, analyze_complaint_web, h]

/-- Witness for C10 at an always-invalid capability pair. -/
theorem start_flow_invalid_fallback_witness :
    capsInvalid.coherence ("WhatsApp Complaint " ++ "the road is bad")
      = false ∧
    start_complaint_flow capsInvalid "+15550100" "the road is bad" =
      ("Got it. I've categorized this as a 'unknown' issue with 'medium' priority. What is the location of this issue?",
       { stage := "get_location", description := some "the road is bad",
         category := some "unknown", priority := some "medium" }) :=
  ⟨rfl, start_flow_invalid_fallback capsInvalid "+15550100" "the road is bad"
    rfl⟩

/-! ### C4: unknown sentinel and argmax selection -/

theorem overlapScore_eq_zero_iff (kws : List String) (message : String) :
    overlapScore kws message = 0 ↔ ∀ k ∈ kws, k ∉ tokensOf message := by
  unfold overlapScore
  rw [List.length_eq_zero, List.filter_eq_nil_iff]
  constructor
  · intro h k hk hmem
    exact h k (List.mem_dedup.mpr hk) (by simpa using hmem)
  · intro h k hk hmem
    exact h k (List.mem_dedup.mp hk) (by simpa using hmem)

theorem overlapScore_pos_iff (kws : List String) (message : String) :
    0 < overlapScore kws message ↔ ∃ k ∈ kws, k ∈ tokensOf message := by
  rw [Nat.pos_iff_ne_zero, Ne, overlapScore_eq_zero_iff]
  push_neg
  simp

theorem mem_scoredIntents {index : List (String × List String)}
    {message : String} {p : String × Nat} :
    p ∈ scoredIntents index message ↔
      ∃ e ∈ index, 0 < overlapScore e.2 message ∧
        p = (e.1, overlapScore e.2 message) := by
  unfold scoredIntents
  simp only [List.mem_filterMap]
  constructor
  · rintro ⟨a, ha, hfa⟩
    by_cases hpos : 0 < overlapScore a.2 message
    · simp only [hpos, if_pos] at hfa
      exact ⟨a, ha, hpos, (Option.some.injEq _ _ ▸ hfa).symm⟩
    · simp [hpos] at hfa
  · rintro ⟨e, he, hpos, rfl⟩
    exact ⟨e, he, by simp [hpos]⟩

theorem pickBest_foldl_mem (first : String × Nat)
    (rest : List (String × Nat)) :
    rest.foldl pickBest first ∈ first :: rest := by
  induction rest generalizing first with
  | nil => simp
  | cons a t ih =>
      simp only [List.foldl_cons]
      rcases List.mem_cons.mp (ih (pickBest first a)) with h | h
      · rw [h]
        unfold pickBest
        by_cases hlt : first.2 < a.2 <;> simp [hlt]
      · simp [h]

theorem pickBest_foldl_le (first : String × Nat)
    (rest : List (String × Nat)) :
    ∀ x ∈ first :: rest, x.2 ≤ (rest.foldl pickBest first).2 := by
  induction rest generalizing first with
  | nil =>
      intro x hx
      rw [List.mem_singleton] at hx
      simp [hx]
  | cons a t ih =>
      intro x hx
      simp only [List.foldl_cons]
      have hfirst : first.2 ≤ (pickBest first a).2 := by
        unfold pickBest
        by_cases hlt : first.2 < a.2 <;> simp [hlt]
        omega
      have ha : a.2 ≤ (pickBest first a).2 := by
        unfold pickBest
        by_cases hlt : first.2 < a.2 <;> simp [hlt]
        omega
      have hhead := ih (pickBest first a) (pickBest first a)
        (List.mem_cons_self _ _)
      rcases List.mem_cons.mp hx with h | h
      · rw [h]
        exact le_trans hfirst hhead
      · rcases List.mem_cons.mp h with h' | h'
        · rw [h']
          exact le_trans ha hhead
        · exact ih (pickBest first a) x (List.mem_cons_of_mem _ h')

/-- C4: a message whose token set meets no intent's keyword set makes
`detect_intent` return the sentinel "unknown"; a message with at least one
positive overlap makes it return the name of an index entry whose overlap
cardinality is maximal over the whole index. -/
theorem detect_intent_unknown_or_argmax (index : List (String × List String))
    (message : String) :
    ((∀ e ∈ index, ∀ k ∈ e.2, k ∉ tokensOf message) →
      detect_intent index message = "unknown") ∧
    ((∃ e ∈ index, ∃ k ∈ e.2, k ∈ tokensOf message) →
      ∃ e ∈ index, detect_intent index message = e.1 ∧
        ∀ q ∈ index, overlapScore q.2 message ≤ overlapScore e.2 message) := by
  constructor
  · intro h
    have hnil : scoredIntents index message = [] := by
      unfold scoredIntents
      rw [List.filterMap_eq_nil_iff]
      intro e he
      have : overlapScore e.2 message = 0 :=
        (overlapScore_eq_zero_iff e.2 message).mpr (h e he)
      simp [this]
    unfold detect_intent
    rw [hnil]
  · rintro ⟨e, he, k, hk, hmem⟩
    have hpos : 0 < overlapScore e.2 message :=
      (overlapScore_pos_iff e.2 message).mpr ⟨k, hk, hmem⟩
    have hmem' : (e.1, overlapScore e.2 message) ∈ scoredIntents index message :=
      mem_scoredIntents.mpr ⟨e, he, hpos, rfl⟩
    rcases hsc : scoredIntents index message with _ | ⟨first, rest⟩
    · rw [hsc] at hmem'
      exact absurd hmem' (List.not_mem_nil _)
    · have hbmem : rest.foldl pickBest first ∈ scoredIntents index message := by
        rw [hsc]
        exact pickBest_foldl_mem first rest
      rcases mem_scoredIntents.mp hbmem with ⟨a, ha, hapos, hab⟩
      refine ⟨a, ha, ?_, ?_⟩
      · unfold detect_intent
        rw [hsc]
        show (rest.foldl pickBest first).1 = a.1
        rw [hab]
      · intro q hq
        by_cases hqpos : 0 < overlapScore q.2 message
        · have hqmem : (q.1, overlapScore q.2 message) ∈ first :: rest := by
            rw [← hsc]
            exact mem_scoredIntents.mpr ⟨q, hq, hqpos, rfl⟩
          have := pickBest_foldl_le first rest _ hqmem
          rw [hab] at this
          exact this
        · omega

/-- Witness for C4 at a concrete index: zero overlap gives "unknown", a
positive overlap gives a maximal-scoring intent. -/
theorem detect_intent_unknown_or_argmax_witness :
    (detect_intent idxSample "good morning" = "unknown") ∧
    (∃ e ∈ idxSample, detect_intent idxSample "please check my file status" = e.1 ∧
      ∀ q ∈ idxSample,
        overlapScore q.2 "please check my file status" ≤
          overlapScore e.2 "please check my file status") :=
  ⟨(detect_intent_unknown_or_argmax idxSample "good morning").1 (by decide),
   (detect_intent_unknown_or_argmax idxSample "please check my file status").2
     (by decide)⟩

/-! ### C5: determinism of intent detection -/

/-- C5 (amended): `detect_intent` is deterministic as a function of the
message and of the keyword-file contents read during the call: two
invocations with the same message and the same call-time index return the
same intent name. -/
theorem detect_intent_deterministic (idx1 idx2 : List (String × List String))
    (m1 m2 : String) (hidx : idx1 = idx2) (hm : m1 = m2) :
    detect_intent idx1 m1 = detect_intent idx2 m2 := by
  rw [hidx, hm]

/-- Witness for the amended C5 at a concrete index and message. -/
theorem detect_intent_deterministic_witness :
    detect_intent idxSample "check status" =
      detect_intent idxSample "check status" :=
  detect_intent_deterministic idxSample idxSample "check status"
    "check status" rfl rfl

/-- Counterexample to C5 as stated: with the message fixed, the output of
`detect_intent` differs between two calls whose `intents/*.txt` contents
differ.  The source re-reads those files inside every call
(`glob.glob` at main.py line 54), so the output depends on the files'
call-time contents, not only on the message and an index loaded once at
startup. -/
theorem detect_intent_reads_call_state :
    detect_intent idxSample "check status" ≠
      detect_intent [] "check status" := by
  decide

/-! ### Store and digit lemmas for the dialogue theorems -/

theorem Store.set_same (st : Store) (k : String) (v : Session) :
    st.set k v k = some v := by
  simp [Store.set]

theorem Store.del_same (st : Store) (k : String) :
    st.del k k = none := by
  simp [Store.del]

theorem decDigitsAux_eq (fuel : Nat) :
    ∀ n, n ≤ fuel →
      decDigitsAux fuel n =
        ((Nat.digits 10 n).reverse).map (fun d => Char.ofNat (48 + d)) := by
  induction fuel with
  | zero =>
      intro n hn
      interval_cases n
      simp [decDigitsAux]
  | succ f ih =>
      intro n hn
      by_cases h0 : n = 0
      · subst h0
        simp [decDigitsAux]
      · have hpos : 0 < n := Nat.pos_of_ne_zero h0
        have hstep : decDigitsAux (f + 1) n =
            decDigitsAux f (n / 10) ++ [Char.ofNat (48 + n % 10)] := by
          simp [decDigitsAux, h0]
        rw [hstep, Nat.digits_def' (by norm_num : (1:ℕ) < 10) hpos,
          List.reverse_cons, List.map_append,
          ih (n / 10) (by
            have := Nat.div_lt_self hpos (by norm_num : (1:ℕ) < 10)
            omega)]
        simp

theorem natDecRepr_data (n : Nat) :
    (natDecRepr n).data =
      ((Nat.digits 10 n).reverse).map (fun d => Char.ofNat (48 + d)) := by
  unfold natDecRepr
  show decDigitsAux n n = _
  exact decDigitsAux_eq n n le_rfl

theorem natDecRepr_length_four (n : Nat) (h1 : 1000 ≤ n) (h2 : n ≤ 9999) :
    (natDecRepr n).length = 4 := by
  show (natDecRepr n).data.length = 4
  rw [natDecRepr_data, List.length_map, List.length_reverse,
    Nat.digits_len 10 n (by norm_num) (by omega)]
  have hlog : Nat.log 10 n = 3 :=
    Nat.log_eq_of_pow_le_of_lt_pow (by norm_num; omega) (by norm_num; omega)
  omega

theorem natDecRepr_all_digits (n : Nat) :
    ∀ c ∈ (natDecRepr n).data, c.isDigit = true := by
  intro c hc
  rw [natDecRepr_data] at hc
  rcases List.mem_map.mp hc with ⟨d, hd, rfl⟩
  have hd10 : d < 10 :=
    Nat.digits_lt_base (by norm_num) (List.mem_reverse.mp hd)
  interval_cases d <;> decide

/-! ### C7: unknown intent falls back to a prompt, never an error -/

/-- C7: on a message classified "unknown": with no session the webhook
replies with the generic welcome prompt and stores a `greeting` session with
no complaint fields; with a session at stage `greeting` it replies with the
clarifying prompt and stores the session back unchanged (stage still
`greeting`). -/
theorem whatsapp_bot_unknown_intent (caps : Caps) (rand : Nat)
    (index : List (String × List String)) (store : Store)
    (From Body : String)
    (hint : detect_intent index (strTrim Body) = "unknown") :
    (store (phoneOf From) = none →
      (whatsapp_bot caps rand index store From Body).1 =
        "Welcome to the Smart Grievance System! How can I help you today? You can say 'file a complaint' or 'check status'." ∧
      (whatsapp_bot caps rand index store From Body).2 (phoneOf From) =
        some { stage := "greeting" }) ∧
    (∀ s, store (phoneOf From) = some s → s.stage = "greeting" →
      (whatsapp_bot caps rand index store From Body).1 =
        "I'm sorry, I didn't understand. You can say 'file a complaint' or 'check status'." ∧
      (whatsapp_bot caps rand index store From Body).2 (phoneOf From) =
        some s) := by
  constructor
  · intro hnone
    constructor
    · simp [whatsapp_bot, hnone, hint]
    · simp [whatsapp_bot, hnone, hint, Store.set]
  · intro s hsome hstage
    constructor
    · simp [whatsapp_bot, hsome, hstage, hint]
    · simp [whatsapp_bot, hsome, hstage, hint, Store.set]

/-- Witness for C7: concrete unknown-intent messages against an empty store
and against a greeting-stage session. -/
theorem whatsapp_bot_unknown_intent_witness :
    (whatsapp_bot capsValid 1234 idxSample emptyStore "whatsapp:+15550100"
        "good morning").2 "+15550100" = some { stage := "greeting" } ∧
    (whatsapp_bot capsValid 1234 idxSample
        (emptyStore.set "+15550100" { stage := "greeting" })
        "whatsapp:+15550100" "good morning").1 =
      "I'm sorry, I didn't understand. You can say 'file a complaint' or 'check status'." :=
  ⟨((whatsapp_bot_unknown_intent capsValid 1234 idxSample emptyStore
      "whatsapp:+15550100" "good morning" (by decide)).1 rfl).2,
   ((whatsapp_bot_unknown_intent capsValid 1234 idxSample
      (emptyStore.set "+15550100" { stage := "greeting" })
      "whatsapp:+15550100" "good morning" (by decide)).2
      { stage := "greeting" } (by decide) rfl).1⟩

/-! ### C1: the complete complaint-filing conversation -/

/-- C1: a fresh user whose first message is classified `file_complaint`,
followed by a location message and a password message, moves through
stages absent → `get_location` → `get_password` → terminal; the final
reply contains the generated id `WACMP-` followed by four decimal digits
(the suffix drawn from 1000..9999), and the user's store entry is gone
afterwards. -/
theorem whatsapp_bot_happy_path (caps : Caps) (r1 r2 r3 : Nat)
    (index : List (String × List String)) (store : Store)
    (From B1 B2 B3 : String)
    (hr3lo : 1000 ≤ r3) (hr3hi : r3 ≤ 9999)
    (hfresh : store (phoneOf From) = none)
    (hint : detect_intent index (strTrim B1) = "file_complaint") :
    (∃ s1, (whatsapp_bot caps r1 index store From B1).2 (phoneOf From) =
        some s1 ∧ s1.stage = "get_location") ∧
    (∃ s2, (whatsapp_bot caps r2 index
          (whatsapp_bot caps r1 index store From B1).2 From B2).2
        (phoneOf From) = some s2 ∧ s2.stage = "get_password") ∧
    (whatsapp_bot caps r3 index
        (whatsapp_bot caps r2 index
          (whatsapp_bot caps r1 index store From B1).2 From B2).2
        From B3).2 (phoneOf From) = none ∧
    ("WACMP-" ++ natDecRepr r3).data <:+:
      (whatsapp_bot caps r3 index
        (whatsapp_bot caps r2 index
          (whatsapp_bot caps r1 index store From B1).2 From B2).2
        From B3).1.data ∧
    (natDecRepr r3).length = 4 ∧
    (∀ c ∈ (natDecRepr r3).data, c.isDigit = true) := by
  set p := phoneOf From with hp
  set s1 := (start_complaint_flow caps p (strTrim B1)).2 with hs1def
  have hs1stage : s1.stage = "get_location" := rfl
  have h1 : (whatsapp_bot caps r1 index store From B1).2 = store.set p s1 := by
    simp [whatsapp_bot, hfresh, hint, hs1def]
  have hlook1 : (store.set p s1) p = some s1 := Store.set_same store p s1
  set s2 : Session :=
    { s1 with location := some (strTrim B2), stage := "get_password" }
    with hs2def
  have hs2stage : s2.stage = "get_password" := rfl
  have h2 : (whatsapp_bot caps r2 index (store.set p s1) From B2).2 =
      (store.set p s1).set p s2 := by
    simp [whatsapp_bot, hlook1, hs1stage, hs2def]
  have hlook2 : ((store.set p s1).set p s2) p = some s2 :=
    Store.set_same (store.set p s1) p s2
  have h3 : whatsapp_bot caps r3 index ((store.set p s1).set p s2) From B3 =
      ("Excellent! Your complaint has been filed. Your Complaint ID is: *" ++
         ("WACMP-" ++ natDecRepr r3) ++ "*. Please save this ID.",
       ((store.set p s1).set p s2).del p) := by
    simp [whatsapp_bot, hlook2, hs2stage]
  refine ⟨⟨s1, ?_, hs1stage⟩, ⟨s2, ?_, hs2stage⟩, ?_, ?_, ?_, ?_⟩
  · rw [h1]
    exact hlook1
  · rw [h1, h2]
    exact hlook2
  · rw [h1, h2, h3]
    exact Store.del_same _ p
  · rw [h1, h2, h3]
    refine ⟨"Excellent! Your complaint has been filed. Your Complaint ID is: *".data,
      "*. Please save this ID.".data, ?_⟩
    simp [String.data_append]
  · exact natDecRepr_length_four r3 hr3lo hr3hi
  · exact natDecRepr_all_digits r3

/-- Witness for C1: a concrete three-message conversation. -/
theorem whatsapp_bot_happy_path_witness :
    (∃ s1, (whatsapp_bot capsValid 1 idxSample emptyStore "whatsapp:+15550100"
        "I want to file a complaint").2 (phoneOf "whatsapp:+15550100") =
        some s1 ∧ s1.stage = "get_location") ∧
    (∃ s2, (whatsapp_bot capsValid 2 idxSample
          (whatsapp_bot capsValid 1 idxSample emptyStore "whatsapp:+15550100"
            "I want to file a complaint").2 "whatsapp:+15550100"
          "Main Street").2
        (phoneOf "whatsapp:+15550100") = some s2 ∧
        s2.stage = "get_password") ∧
    (whatsapp_bot capsValid 4242 idxSample
        (whatsapp_bot capsValid 2 idxSample
          (whatsapp_bot capsValid 1 idxSample emptyStore "whatsapp:+15550100"
            "I want to file a complaint").2 "whatsapp:+15550100"
          "Main Street").2
        "whatsapp:+15550100" "pw123").2 (phoneOf "whatsapp:+15550100")
      = none ∧
    ("WACMP-" ++ natDecRepr 4242).data <:+:
      (whatsapp_bot capsValid 4242 idxSample
        (whatsapp_bot capsValid 2 idxSample
          (whatsapp_bot capsValid 1 idxSample emptyStore "whatsapp:+15550100"
            "I want to file a complaint").2 "whatsapp:+15550100"
          "Main Street").2
        "whatsapp:+15550100" "pw123").1.data ∧
    (natDecRepr 4242).length = 4 ∧
    (∀ c ∈ (natDecRepr 4242).data, c.isDigit = true) :=
  whatsapp_bot_happy_path capsValid 1 2 4242 idxSample emptyStore
    "whatsapp:+15550100" "I want to file a complaint" "Main Street" "pw123"
    (by norm_num) (by norm_num) rfl (by decide)

/-! ### C6 and C9: stage invariants of the session store -/

/-- The stage of a session determines which fields are populated:
`get_location` carries description, category and priority; `get_password`
additionally carries the location; `greeting` and `get_status_id` sessions
carry no complaint fields. -/
def sessionWF (s : Session) : Prop :=
  (s.stage = "get_location" →
    s.description.isSome = true ∧ s.category.isSome = true ∧
      s.priority.isSome = true) ∧
  (s.stage = "get_password" →
    s.description.isSome = true ∧ s.category.isSome = true ∧
      s.priority.isSome = true ∧ s.location.isSome = true) ∧
  ((s.stage = "greeting" ∨ s.stage = "get_status_id") →
    s.description = none ∧ s.category = none ∧ s.priority = none ∧
      s.location = none ∧ s.password = none ∧ s.id = none)

/-- The webhook only ever stores these four stage values; in particular it
never stores `get_description`. -/
def stageOK (s : Session) : Prop :=
  s.stage = "greeting" ∨ s.stage = "get_location" ∨
    s.stage = "get_password" ∨ s.stage = "get_status_id"

/-- Every session of the store satisfies `P`. -/
def storeAll (P : Session → Prop) (st : Store) : Prop :=
  ∀ p s, st p = some s → P s

theorem storeAll_set {P : Session → Prop} {st : Store}
    (h : storeAll P st) {k : String} {v : Session} (hv : P v) :
    storeAll P (st.set k v) := by
  intro q s hq
  unfold Store.set at hq
  by_cases hqk : q = k
  · rw [if_pos hqk] at hq
    cases hq
    exact hv
  · rw [if_neg hqk] at hq
    exact h q s hq

theorem storeAll_del {P : Session → Prop} {st : Store}
    (h : storeAll P st) (k : String) :
    storeAll P (st.del k) := by
  intro q s hq
  unfold Store.del at hq
  by_cases hqk : q = k
  · rw [if_pos hqk] at hq
    cases hq
  · rw [if_neg hqk] at hq
    exact h q s hq

/-- The session built by `start_complaint_flow`: stage `get_location` with
description, category and priority populated. -/
theorem start_flow_session (caps : Caps) (phone m : String) :
    ∃ c pr, (start_complaint_flow caps phone m).2 =
      { stage := "get_location", description := some m,
        category := some c, priority := some pr } :=
  ⟨_, _, rfl⟩

theorem sessionWF_start_flow (caps : Caps) (phone m : String) :
    sessionWF (start_complaint_flow caps phone m).2 := by
  obtain ⟨c, pr, heq⟩ := start_flow_session caps phone m
  rw [heq]
  simp [sessionWF]

theorem stageOK_start_flow (caps : Caps) (phone m : String) :
    stageOK (start_complaint_flow caps phone m).2 := by
  obtain ⟨c, pr, heq⟩ := start_flow_session caps phone m
  rw [heq]
  simp [stageOK]

/-- C6: every webhook invocation preserves the field-population invariant:
if each stored session's stage determines its populated fields as
`sessionWF` states, the same holds of every session after the call. -/
theorem whatsapp_bot_preserves_sessionWF (caps : Caps) (rand : Nat)
    (index : List (String × List String)) (store : Store)
    (From Body : String) (h : storeAll sessionWF store) :
    storeAll sessionWF (whatsapp_bot caps rand index store From Body).2 := by
  rcases hs : store (phoneOf From) with _ | sess
  · simp only [whatsapp_bot, hs]
    split_ifs
    · exact storeAll_set h (sessionWF_start_flow caps _ _)
    · exact storeAll_set h (by simp [sessionWF])
    · exact storeAll_set h (by simp [sessionWF])
  · have hw := h _ _ hs
    simp only [whatsapp_bot, hs]
    split_ifs with hg hfc hcs hgd hgl hgp hgs
    · exact storeAll_set h (sessionWF_start_flow caps _ _)
    · obtain ⟨hd, hc, hpr, hl, hpw, hid⟩ := hw.2.2 (Or.inl hg)
      exact storeAll_set h (by simp [sessionWF, hd, hc, hpr, hl, hpw, hid])
    · exact storeAll_set h hw
    · exact storeAll_set h (sessionWF_start_flow caps _ _)
    · obtain ⟨hd, hc, hpr⟩ := hw.1 hgl
      exact storeAll_set h (by simp [sessionWF, hd, hc, hpr])
    · exact storeAll_del h _
    · exact storeAll_del h _
    · exact storeAll_set h hw

/-- Witness for C6 at the empty store and a concrete message. -/
theorem whatsapp_bot_preserves_sessionWF_witness :
    storeAll sessionWF
      (whatsapp_bot capsValid 1234 idxSample emptyStore "whatsapp:+15550100"
        "I want to file a complaint").2 :=
  whatsapp_bot_preserves_sessionWF capsValid 1234 idxSample emptyStore
    "whatsapp:+15550100" "I want to file a complaint"
    (fun _ _ hp => Option.noConfusion hp)

/-- C9: no webhook invocation writes a session at stage `get_description`:
the only stages ever stored are `greeting`, `get_location`, `get_password`
and `get_status_id` (so the `get_description` branch can never be reached
from sessions created by the webhook itself). -/
theorem whatsapp_bot_preserves_stageOK (caps : Caps) (rand : Nat)
    (index : List (String × List String)) (store : Store)
    (From Body : String) (h : storeAll stageOK store) :
    storeAll stageOK (whatsapp_bot caps rand index store From Body).2 := by
  rcases hs : store (phoneOf From) with _ | sess
  · simp only [whatsapp_bot, hs]
    split_ifs
    · exact storeAll_set h (stageOK_start_flow caps _ _)
    · exact storeAll_set h (by simp [stageOK])
    · exact storeAll_set h (by simp [stageOK])
  · have hw := h _ _ hs
    simp only [whatsapp_bot, hs]
    split_ifs
    · exact storeAll_set h (stageOK_start_flow caps _ _)
    · exact storeAll_set h (by simp [stageOK])
    · exact storeAll_set h hw
    · exact storeAll_set h (stageOK_start_flow caps _ _)
    · exact storeAll_set h (by simp [stageOK])
    · exact storeAll_del h _
    · exact storeAll_del h _
    · exact storeAll_set h hw

/-- Witness for C9 at the empty store and a concrete message. -/
theorem whatsapp_bot_preserves_stageOK_witness :
    storeAll stageOK
      (whatsapp_bot capsValid 1234 idxSample emptyStore "whatsapp:+15550100"
        "check the status please").2 :=
  whatsapp_bot_preserves_stageOK capsValid 1234 idxSample emptyStore
    "whatsapp:+15550100" "check the status please"
    (fun _ _ hp => Option.noConfusion hp)
